import Mathlib

/-!
Verification of the daemon configuration fragment
(upstream-proxy/src/daemon/config.rs).

The fragment assembles a protocol configuration value (`configure`),
defines the loopback-any-port sentinel (`LOCALHOST_ANY`), and provides a
no-op peer-discovery implementation (`NoDiscovery`) whose stream pends
forever.  Library types consumed from the protocol engine (membership
parameters, network selector, replication configuration, rate-limit
quotas, storage configuration, peer identifiers, path context) are
opaque to this fragment; each is embedded as a carrier with a
distinguished default value, exactly as the fragment consumes them.
-/

/-- A socket address: IPv4 (four octets and a port) or IPv6
(segments and a port), mirroring the two variants of the source type. -/
inductive SocketAddr where
  | v4 (a b c d : Nat) (port : Nat)
  | v6 (segments : List Nat) (port : Nat)
deriving DecidableEq, Repr

/-- Opaque filesystem path context consumed from the path/storage
subsystem; the fragment passes it through unmodified. -/
structure Paths where
  root : String
deriving DecidableEq, Repr

/-- Opaque peer identifier consumed from the identity subsystem. -/
structure PeerId where
  key : String
deriving DecidableEq, Repr

/-- Library membership parameters, opaque here; carries a default. -/
structure MembershipParams where
  data : Nat
deriving DecidableEq, Repr

/-- The library default for membership parameters. -/
def MembershipParams.default : MembershipParams := ⟨0⟩

/-- Library network identity/selector, opaque here; carries a default. -/
structure Network where
  data : Nat
deriving DecidableEq, Repr

/-- The library default network (the standard public network). -/
def Network.default : Network := ⟨0⟩

/-- Library replication configuration, opaque here; carries a default. -/
structure ReplicationConfig where
  data : Nat
deriving DecidableEq, Repr

/-- The library default replication configuration. -/
def ReplicationConfig.default : ReplicationConfig := ⟨0⟩

/-- Library rate-limit quotas, opaque here; carries a default. -/
structure Quota where
  data : Nat
deriving DecidableEq, Repr

/-- The library default quotas. -/
def Quota.default : Quota := ⟨0⟩

/-- Library storage configuration, opaque here; carries a default. -/
structure Storage where
  data : Nat
deriving DecidableEq, Repr

/-- The library default storage configuration. -/
def Storage.default : Storage := ⟨0⟩

/-- An inbound request-pull admission policy, embedded by its
semantics: the predicate telling which peers may pull from this node. -/
def RequestPullGuard : Type := PeerId → Bool

/-- The deny-all admission policy (the library DenyAll guard): no peer
is admitted. -/
def RequestPullGuard.denyAll : RequestPullGuard := fun _ => false

/-- The protocol-level configuration record assembled by the fragment,
field for field as in the source struct literal. -/
structure ProtocolConfig where
  paths : Paths
  listen_addr : SocketAddr
  advertised_addrs : Option (List SocketAddr)
  membership : MembershipParams
  network : Network
  replication : ReplicationConfig
  rate_limits : Quota
  request_pull : RequestPullGuard

/-- The peer configuration record, generic over the signer type exactly
as the source function is generic over S. -/
structure Config (S : Type) where
  signer : S
  protocol : ProtocolConfig
  storage : Storage

/-- Localhost binding to any available port, i.e. 127.0.0.1 port 0,
from the source constant. -/
def LOCALHOST_ANY : SocketAddr := SocketAddr.v4 127 0 0 1 0

/-- The configuration assembler: pure value construction, total by
construction (it returns a Config, not an Option or Except).  Each
field is either taken from an input or set to the library default, as
in the source struct literal. -/
def configure {S : Type} (paths : Paths) (signer : S) (listen_addr : SocketAddr) :
    Config S :=
  { signer := signer
    protocol :=
      { paths := paths
        listen_addr := listen_addr
        advertised_addrs := none
        membership := MembershipParams.default
        network := Network.default
        replication := ReplicationConfig.default
        rate_limits := Quota.default
        request_pull := RequestPullGuard.denyAll }
    storage := Storage.default }

/-- A discovery candidate: a peer identifier with its candidate
addresses. -/
def DiscoveryItem : Type := PeerId × List SocketAddr

instance : DecidableEq DiscoveryItem := fun a b =>
  instDecidableEqProd a b

/-- The result of one poll of a lazy stream: pending (suspended),
ready some item (yield), or ready none (completion). -/
inductive Poll (α : Type) where
  | pending
  | ready (item : Option α)
deriving DecidableEq, Repr

/-- A suspend-on-empty lazy stream is embedded by its remaining yields:
polling with items left yields the head, polling with none left is
pending forever (the futures pending semantics); such a stream never
signals completion.  Terminating streams do not occur in this
fragment. -/
def DiscoveryStream : Type := List DiscoveryItem

/-- One poll step: yield the head if an item remains, otherwise stay
pending with unchanged state. -/
def pollNext (s : List DiscoveryItem) : Poll DiscoveryItem × List DiscoveryItem :=
  match s with
  | [] => (Poll.pending, [])
  | x :: xs => (Poll.ready (some x), xs)

/-- The stream state after n polls. -/
def stateAfter (s : List DiscoveryItem) : Nat → List DiscoveryItem
  | 0 => s
  | n + 1 => (pollNext (stateAfter s n)).2

/-- The result of poll number n (0-indexed). -/
def pollResult (s : List DiscoveryItem) (n : Nat) : Poll DiscoveryItem :=
  (pollNext (stateAfter s n)).1

/-- The no-op discovery provider: a stateless unit struct. -/
structure NoDiscovery where
deriving DecidableEq, Repr

/-- The derived clone of the unit struct: clones every (zero) field. -/
def NoDiscovery.clone (x : NoDiscovery) : NoDiscovery := x

/-- The discover operation of the no-op provider: the pending stream,
which has no yields at all. -/
def NoDiscovery.discover (_ : NoDiscovery) : DiscoveryStream := []

/-- Modelled from the spec: the concrete non-no-op (static-list)
discovery strategy of sections 8 and 9 is not under src/ (the fragment
there contains only the no-op variant); per the spec it holds a static
list of known peer/address pairs and its stream yields exactly those
entries and then pends forever rather than terminating. -/
structure StaticDiscovery where
  entries : List DiscoveryItem

/-- Modelled from the spec: the static strategy's discover operation
yields its static entries, then the stream pends forever. -/
def StaticDiscovery.discover (d : StaticDiscovery) : DiscoveryStream := d.entries

/- Helper lemmas about the stream embedding. -/

theorem stateAfter_nil (n : Nat) : stateAfter [] n = [] := by
  induction n with
  | zero => rfl
  | succ n ih => simp [stateAfter, ih, pollNext]

theorem pollResult_nil (n : Nat) : pollResult [] n = Poll.pending := by
  simp [pollResult, stateAfter_nil, pollNext]

theorem stateAfter_cons (x : DiscoveryItem) (xs : List DiscoveryItem) (n : Nat) :
    stateAfter (x :: xs) (n + 1) = stateAfter xs n := by
  induction n with
  | zero => rfl
  | succ n ih =>
    show (pollNext (stateAfter (x :: xs) (n + 1))).2 = (pollNext (stateAfter xs n)).2
    rw [ih]

theorem pollResult_cons_succ (x : DiscoveryItem) (xs : List DiscoveryItem) (n : Nat) :
    pollResult (x :: xs) (n + 1) = pollResult xs n := by
  simp [pollResult, stateAfter_cons]

theorem pollResult_drained (s : List DiscoveryItem) (n : Nat)
    (h : s.length ≤ n) : pollResult s n = Poll.pending := by
  induction s generalizing n with
  | nil => exact pollResult_nil n
  | cons x xs ih =>
    cases n with
    | zero => simp at h
    | succ n =>
      rw [pollResult_cons_succ]
      exact ih n (Nat.le_of_succ_le_succ h)

/- Claim theorems. -/

/-- Claim C1: for every path context, signer and socket address a,
configure returns a configuration whose protocol listen address is
exactly a, whose advertised_addrs is none, and whose request_pull
policy is deny-all (it admits no peer). -/
theorem configure_listen_advertised_requestPull {S : Type}
    (paths : Paths) (signer : S) (a : SocketAddr) :
    (configure paths signer a).protocol.listen_addr = a ∧
    (configure paths signer a).protocol.advertised_addrs = none ∧
    (configure paths signer a).protocol.request_pull = RequestPullGuard.denyAll ∧
    ∀ p : PeerId, (configure paths signer a).protocol.request_pull p = false :=
  ⟨rfl, rfl, rfl, fun _ => rfl⟩

/-- Claim C2: the stream returned by the no-op provider's discover
operation, polled any finite number of times (0, 1, 1000, any n),
returns the pending state on every poll; in particular it never equals
a yield (ready some) or a completion signal (ready none). -/
theorem noDiscovery_stream_forever_pending (d : NoDiscovery) (n : Nat) :
    pollResult d.discover n = Poll.pending :=
  pollResult_nil n

/-- Claim C3: configure is total (it is a Lean function into Config,
with no error channel) and every field not taken from the inputs equals
the corresponding library default. -/
theorem configure_defaults {S : Type} (paths : Paths) (signer : S) (a : SocketAddr) :
    (configure paths signer a).protocol.membership = MembershipParams.default ∧
    (configure paths signer a).protocol.network = Network.default ∧
    (configure paths signer a).protocol.replication = ReplicationConfig.default ∧
    (configure paths signer a).protocol.rate_limits = Quota.default ∧
    (configure paths signer a).storage = Storage.default :=
  ⟨rfl, rfl, rfl, rfl, rfl⟩

/-- Claim C4: the LOCALHOST_ANY sentinel is exactly the IPv4 loopback
address 127.0.0.1 with port 0. -/
theorem localhostAny_is_loopback_port_zero :
    LOCALHOST_ANY = SocketAddr.v4 127 0 0 1 0 := rfl

/-- Claim C5: configure is deterministic: two independent calls with
identical paths, signer and listen address produce configurations that
are field-wise equal. -/
theorem configure_deterministic {S : Type}
    (paths : Paths) (signer : S) (a : SocketAddr) (c₁ c₂ : Config S)
    (h₁ : c₁ = configure paths signer a) (h₂ : c₂ = configure paths signer a) :
    c₁.signer = c₂.signer ∧ c₁.protocol = c₂.protocol ∧ c₁.storage = c₂.storage := by
  subst h₁; subst h₂; exact ⟨rfl, rfl, rfl⟩

/-- Witness for claim C5 at a concrete input. -/
theorem configure_deterministic_witness :
    (configure ⟨"a"⟩ (0 : Nat) LOCALHOST_ANY).signer =
      (configure ⟨"a"⟩ (0 : Nat) LOCALHOST_ANY).signer ∧
    (configure ⟨"a"⟩ (0 : Nat) LOCALHOST_ANY).protocol =
      (configure ⟨"a"⟩ (0 : Nat) LOCALHOST_ANY).protocol ∧
    (configure ⟨"a"⟩ (0 : Nat) LOCALHOST_ANY).storage =
      (configure ⟨"a"⟩ (0 : Nat) LOCALHOST_ANY).storage :=
  configure_deterministic ⟨"a"⟩ (0 : Nat) LOCALHOST_ANY
    (configure ⟨"a"⟩ (0 : Nat) LOCALHOST_ANY)
    (configure ⟨"a"⟩ (0 : Nat) LOCALHOST_ANY) rfl rfl

/-- Claim C7 (strategy modelled from the spec, absent from src/): a
static-list discovery strategy over 3 known peer/address pairs yields
exactly those 3 candidates in order and then pends forever, never
signalling completion, like the no-op variant. -/
theorem staticDiscovery_three_then_pending (e₀ e₁ e₂ : DiscoveryItem)
    (n : Nat) (hn : 3 ≤ n) :
    pollResult (StaticDiscovery.discover ⟨[e₀, e₁, e₂]⟩) 0 = Poll.ready (some e₀) ∧
    pollResult (StaticDiscovery.discover ⟨[e₀, e₁, e₂]⟩) 1 = Poll.ready (some e₁) ∧
    pollResult (StaticDiscovery.discover ⟨[e₀, e₁, e₂]⟩) 2 = Poll.ready (some e₂) ∧
    pollResult (StaticDiscovery.discover ⟨[e₀, e₁, e₂]⟩) n = Poll.pending ∧
    pollResult (StaticDiscovery.discover ⟨[e₀, e₁, e₂]⟩) n =
      pollResult (NoDiscovery.discover ⟨⟩) n := by
  have h : pollResult (StaticDiscovery.discover ⟨[e₀, e₁, e₂]⟩) n = Poll.pending :=
    pollResult_drained [e₀, e₁, e₂] n (by simpa using hn)
  refine ⟨rfl, rfl, rfl, h, ?_⟩
  rw [h]
  exact (pollResult_nil n).symm

/-- Witness for claim C7 at concrete entries and poll number 1000. -/
theorem staticDiscovery_three_then_pending_witness :
    pollResult (StaticDiscovery.discover
        ⟨[(⟨"p0"⟩, [LOCALHOST_ANY]), (⟨"p1"⟩, []), (⟨"p2"⟩, [])]⟩) 0 =
      Poll.ready (some (⟨"p0"⟩, [LOCALHOST_ANY])) ∧
    pollResult (StaticDiscovery.discover
        ⟨[(⟨"p0"⟩, [LOCALHOST_ANY]), (⟨"p1"⟩, []), (⟨"p2"⟩, [])]⟩) 1 =
      Poll.ready (some (⟨"p1"⟩, [])) ∧
    pollResult (StaticDiscovery.discover
        ⟨[(⟨"p0"⟩, [LOCALHOST_ANY]), (⟨"p1"⟩, []), (⟨"p2"⟩, [])]⟩) 2 =
      Poll.ready (some (⟨"p2"⟩, [])) ∧
    pollResult (StaticDiscovery.discover
        ⟨[(⟨"p0"⟩, [LOCALHOST_ANY]), (⟨"p1"⟩, []), (⟨"p2"⟩, [])]⟩) 1000 = Poll.pending ∧
    pollResult (StaticDiscovery.discover
        ⟨[(⟨"p0"⟩, [LOCALHOST_ANY]), (⟨"p1"⟩, []), (⟨"p2"⟩, [])]⟩) 1000 =
      pollResult (NoDiscovery.discover ⟨⟩) 1000 :=
  staticDiscovery_three_then_pending
    (⟨"p0"⟩, [LOCALHOST_ANY]) (⟨"p1"⟩, []) (⟨"p2"⟩, []) 1000 (by decide)

/-- Claim C8: NoDiscovery is stateless and cloneable; a clone behaves
identically: discover on the clone is the same stream as discover on
the original, and that stream is forever pending. -/
theorem noDiscovery_clone_same_behavior (d : NoDiscovery) :
    d.clone.discover = d.discover ∧
    ∀ n : Nat, pollResult d.clone.discover n = pollResult d.discover n ∧
      pollResult d.clone.discover n = Poll.pending :=
  ⟨rfl, fun n => ⟨rfl, pollResult_nil n⟩⟩

/-- Claim C9: configure passes the path context and the signer through
unchanged; it is pure value construction (a Lean function with no state
or effects), so no other program state is touched. -/
theorem configure_passthrough {S : Type} (paths : Paths) (signer : S) (a : SocketAddr) :
    (configure paths signer a).protocol.paths = paths ∧
    (configure paths signer a).signer = signer :=
  ⟨rfl, rfl⟩

/-- Claim C10: the output of configure depends on the signer only
through its signer field: with the same paths and listen address, two
different signers give identical protocol and storage fields. -/
theorem configure_signer_noninterference {S : Type}
    (paths : Paths) (a : SocketAddr) (s₁ s₂ : S) :
    (configure paths s₁ a).protocol = (configure paths s₂ a).protocol ∧
    (configure paths s₁ a).storage = (configure paths s₂ a).storage :=
  ⟨rfl, rfl⟩
